import Mathlib

/-!
Shallow embedding of the SiMi-Demo-Board firmware (STM32H7 peripheral drivers)
for verification of its natural-language specification.

Modelled source files:
* `Code/Core/Src/UserInput.c`  — debounce & input event engine
* `Code/Core/Src/main.c`       — the TIM6 period-elapsed callback branch
* `Code/Core/Src/WS2812.c`     — WS2812 PWM/DMA protocol encoder
* `Code/Core/Src/W25Qxx_QSPI.c`— flash paging writer
* `Code/Core/Src/ILI9341.c`    — display colour-burst transfer engine

Machine integers are modelled as `Nat` with explicit truncation (`% 2^w`)
where the C code can overflow or narrow; `uint8_t` flags that only ever hold
0/1 are modelled as `Bool`; GPIO reads are modelled by an explicit
`levels : Pin → Bool` environment passed to each function that samples pins
(the levels are assumed stable for the duration of one C function body).
-/

/-! ## Pin abstraction

The C `Pin` struct (declared in `Pin.h`, used as `(Pin){GPIOx, GPIO_Pin}`)
bundles a GPIO port pointer with a pin bit-mask.  Ports are modelled as
numeric tags, pin masks by their numeric value (`GPIO_PIN_n = 1 <<< n`). -/

structure Pin where
  GPIOx : Nat
  GPIO_Pin : Nat
deriving DecidableEq, Repr

def GPIOB : Nat := 1
def GPIOC : Nat := 2
def GPIOD : Nat := 3
def GPIOE : Nat := 4

def GPIO_PIN_5 : Nat := 32
def GPIO_PIN_10 : Nat := 1024
def GPIO_PIN_13 : Nat := 8192
def GPIO_PIN_14 : Nat := 16384
def GPIO_PIN_15 : Nat := 32768

/-! Pin bindings from `Code/Core/Inc/main.h`. -/

def MDS_LEFT_GPIO_Port : Nat := GPIOE
def MDS_LEFT_Pin : Nat := GPIO_PIN_5
def MDS_RIGHT_GPIO_Port : Nat := GPIOB
def MDS_RIGHT_Pin : Nat := GPIO_PIN_5
def MDS_UP_GPIO_Port : Nat := GPIOE
def MDS_UP_Pin : Nat := GPIO_PIN_15
def MDS_DOWN_GPIO_Port : Nat := GPIOE
def MDS_DOWN_Pin : Nat := GPIO_PIN_10
def MDS_BUTTON_GPIO_Port : Nat := GPIOD
def MDS_BUTTON_Pin : Nat := GPIO_PIN_14
def USER_BUTTON_GPIO_Port : Nat := GPIOC
def USER_BUTTON_Pin : Nat := GPIO_PIN_13

/-! ## UserInput data model (`UserInput.c` / `UserInput.h`)

The active build configuration of the repository is `USE_INTERRUPT` together
with `DEBOUNCE_WITH_TIMER` (see `UserInput.h`); `PollingUserInput` is the
`USE_POLLING` + `DEBOUNCE_WITH_TIMER` variant of the same file and is
modelled as compiled under those two macros.  The transient
`MDS_*_Status` globals of the polling path are write-before-read temporaries
within one `PollingUserInput` call and are modelled as `let`-bindings. -/

inductive UserInputs where
  | MDS_LEFT
  | MDS_RIGHT
  | MDS_UP
  | MDS_DOWN
  | MDS_BUTTON
  | USER_BUTTON
  | USER_INPUT_NONE
deriving DecidableEq, Repr

/-- Global mutable state of the UserInput module: the six pending flags, the
six public `*_Flanke` flags, the six `*_LetzterStatus` previous-sample
values, the recorded last input (pin and enum), the `debounce_in_progress`
latch, and whether the one-shot debounce timer TIM6 is running. -/
structure UIState where
  Pending_MDS_LEFT_Flanke : Bool
  Pending_MDS_RIGHT_Flanke : Bool
  Pending_MDS_UP_Flanke : Bool
  Pending_MDS_DOWN_Flanke : Bool
  Pending_MDS_BUTTON_Flanke : Bool
  Pending_USER_BUTTON_Flanke : Bool
  MDS_LEFT_Flanke : Bool
  MDS_RIGHT_Flanke : Bool
  MDS_UP_Flanke : Bool
  MDS_DOWN_Flanke : Bool
  MDS_BUTTON_Flanke : Bool
  USER_BUTTON_Flanke : Bool
  MDS_LEFT_LetzterStatus : Bool
  MDS_RIGHT_LetzterStatus : Bool
  MDS_UP_LetzterStatus : Bool
  MDS_DOWN_LetzterStatus : Bool
  MDS_BUTTON_LetzterStatus : Bool
  USER_BUTTON_LetzterStatus : Bool
  LetzterUserInputPin : Pin
  LetzterUserInput : UserInputs
  debounce_in_progress : Bool
  tim6_running : Bool
deriving DecidableEq, Repr

/-- Body of `HandleFlanke` under `DEBOUNCE_WITH_TIMER` (UserInput.c lines
192-200): sets the global `debounce_in_progress` latch, records the pin and
input for `HandleDebouncedUserInput`, resets TIM6's counter and starts it.
The `flankenVariable` pointer argument of the C function is unused in this
configuration and therefore omitted. -/
def HandleFlanke (pin : Pin) (userInput : UserInputs) (s : UIState) : UIState :=
  { s with debounce_in_progress := true
         , LetzterUserInputPin := pin
         , LetzterUserInput := userInput
         , tim6_running := true }

/-- Body of `HandleFlanke` under `DEBOUNCE_WITH_DELAY` (UserInput.c lines
185-190), reduced to its data flow: after `HAL_Delay(50)` the pin is
re-sampled (`levelAfterDelay`) and the pointed-to flag becomes `true` when
`read == 1 || (read == 0 && userInput == USER_BUTTON)`, else keeps its old
value.  Both C reads of the pin within the condition are modelled by the
single stable `levelAfterDelay`. -/
def HandleFlankeDelay (levelAfterDelay : Bool) (userInput : UserInputs)
    (flankenVariable : Bool) : Bool :=
  if levelAfterDelay || (!levelAfterDelay && (userInput == UserInputs.USER_BUTTON)) then
    true
  else
    flankenVariable

/-- `PollingUserInput` (UserInput.c lines 225-274, `USE_POLLING` +
`DEBOUNCE_WITH_TIMER`): returns immediately while a debounce is in progress;
otherwise samples all six pins once, runs the `if / else if` edge-detection
chain (rising edge for the five MDS lines, falling edge for USER_BUTTON),
and finally stores the samples into the `*_LetzterStatus` variables. -/
def PollingUserInput (levels : Pin → Bool) (s : UIState) : UIState :=
  if s.debounce_in_progress then s
  else
    let MDS_LEFT_Status := levels ⟨MDS_LEFT_GPIO_Port, MDS_LEFT_Pin⟩
    let MDS_RIGHT_Status := levels ⟨MDS_RIGHT_GPIO_Port, MDS_RIGHT_Pin⟩
    let MDS_UP_Status := levels ⟨MDS_UP_GPIO_Port, MDS_UP_Pin⟩
    let MDS_DOWN_Status := levels ⟨MDS_DOWN_GPIO_Port, MDS_DOWN_Pin⟩
    let MDS_BUTTON_Status := levels ⟨MDS_BUTTON_GPIO_Port, MDS_BUTTON_Pin⟩
    let USER_BUTTON_Status := levels ⟨USER_BUTTON_GPIO_Port, USER_BUTTON_Pin⟩
    let s1 :=
      if MDS_LEFT_Status && !s.MDS_LEFT_LetzterStatus then
        HandleFlanke ⟨MDS_LEFT_GPIO_Port, MDS_LEFT_Pin⟩ UserInputs.MDS_LEFT s
      else if MDS_RIGHT_Status && !s.MDS_RIGHT_LetzterStatus then
        HandleFlanke ⟨MDS_RIGHT_GPIO_Port, MDS_RIGHT_Pin⟩ UserInputs.MDS_RIGHT s
      else if MDS_UP_Status && !s.MDS_UP_LetzterStatus then
        HandleFlanke ⟨MDS_UP_GPIO_Port, MDS_UP_Pin⟩ UserInputs.MDS_UP s
      else if MDS_DOWN_Status && !s.MDS_DOWN_LetzterStatus then
        HandleFlanke ⟨MDS_DOWN_GPIO_Port, MDS_DOWN_Pin⟩ UserInputs.MDS_DOWN s
      else if MDS_BUTTON_Status && !s.MDS_BUTTON_LetzterStatus then
        HandleFlanke ⟨MDS_BUTTON_GPIO_Port, MDS_BUTTON_Pin⟩ UserInputs.MDS_BUTTON s
      else if !USER_BUTTON_Status && s.USER_BUTTON_LetzterStatus then
        HandleFlanke ⟨USER_BUTTON_GPIO_Port, USER_BUTTON_Pin⟩ UserInputs.USER_BUTTON s
      else s
    { s1 with MDS_LEFT_LetzterStatus := MDS_LEFT_Status
            , MDS_RIGHT_LetzterStatus := MDS_RIGHT_Status
            , MDS_UP_LetzterStatus := MDS_UP_Status
            , MDS_DOWN_LetzterStatus := MDS_DOWN_Status
            , MDS_BUTTON_LetzterStatus := MDS_BUTTON_Status
            , USER_BUTTON_LetzterStatus := USER_BUTTON_Status }

/-- `HandleDebouncedUserInput` (UserInput.c lines 295-328): re-samples the
recorded pin; if it reads high, sets the pending flag of the recorded MDS
channel (`switch` with `default: break`); else if the recorded input is
USER_BUTTON and the pin reads low, sets the USER_BUTTON pending flag;
otherwise clears the recorded input to `USER_INPUT_NONE` and the recorded
pin to `{0,0}`. -/
def HandleDebouncedUserInput (levels : Pin → Bool) (s : UIState) : UIState :=
  if levels s.LetzterUserInputPin then
    match s.LetzterUserInput with
    | UserInputs.MDS_LEFT => { s with Pending_MDS_LEFT_Flanke := true }
    | UserInputs.MDS_RIGHT => { s with Pending_MDS_RIGHT_Flanke := true }
    | UserInputs.MDS_UP => { s with Pending_MDS_UP_Flanke := true }
    | UserInputs.MDS_DOWN => { s with Pending_MDS_DOWN_Flanke := true }
    | UserInputs.MDS_BUTTON => { s with Pending_MDS_BUTTON_Flanke := true }
    | _ => s
  else if s.LetzterUserInput == UserInputs.USER_BUTTON
        && !(levels s.LetzterUserInputPin) then
    { s with Pending_USER_BUTTON_Flanke := true }
  else
    { s with LetzterUserInput := UserInputs.USER_INPUT_NONE
           , LetzterUserInputPin := ⟨0, 0⟩ }

/-- TIM6 branch of `HAL_TIM_PeriodElapsedCallback` (main.c lines 372-383)
under `DEBOUNCE_WITH_TIMER`: calls `HandleDebouncedUserInput`, stops TIM6 and
clears the `debounce_in_progress` latch. -/
def TIM6_PeriodElapsedCallback (levels : Pin → Bool) (s : UIState) : UIState :=
  let s1 := HandleDebouncedUserInput levels s
  { s1 with tim6_running := false, debounce_in_progress := false }

/-- `HandlePendingUserInput` (UserInput.c lines 353-378): for each channel,
if its pending flag is set, set the public `*_Flanke` flag and clear the
pending flag; performed as six independent sequential conditionals. -/
def HandlePendingUserInput (s : UIState) : UIState :=
  let s := if s.Pending_MDS_LEFT_Flanke then
    { s with MDS_LEFT_Flanke := true, Pending_MDS_LEFT_Flanke := false } else s
  let s := if s.Pending_MDS_RIGHT_Flanke then
    { s with MDS_RIGHT_Flanke := true, Pending_MDS_RIGHT_Flanke := false } else s
  let s := if s.Pending_MDS_UP_Flanke then
    { s with MDS_UP_Flanke := true, Pending_MDS_UP_Flanke := false } else s
  let s := if s.Pending_MDS_DOWN_Flanke then
    { s with MDS_DOWN_Flanke := true, Pending_MDS_DOWN_Flanke := false } else s
  let s := if s.Pending_MDS_BUTTON_Flanke then
    { s with MDS_BUTTON_Flanke := true, Pending_MDS_BUTTON_Flanke := false } else s
  let s := if s.Pending_USER_BUTTON_Flanke then
    { s with USER_BUTTON_Flanke := true, Pending_USER_BUTTON_Flanke := false } else s
  s

/-- `ResetFlanken` (UserInput.c lines 380-388): clears all six public
`*_Flanke` flags. -/
def ResetFlanken (s : UIState) : UIState :=
  { s with MDS_LEFT_Flanke := false
         , MDS_RIGHT_Flanke := false
         , MDS_UP_Flanke := false
         , MDS_DOWN_Flanke := false
         , MDS_BUTTON_Flanke := false
         , USER_BUTTON_Flanke := false }

/-- `HandleUserInputInterrupt` (UserInput.c lines 413-439, `USE_INTERRUPT` +
`DEBOUNCE_WITH_TIMER`): no-op while a debounce is in progress, otherwise
dispatches `HandleFlanke` for the five interrupt-capable inputs (MDS_LEFT is
excluded: it shares pin 5 with MDS_RIGHT and is handled by `HandleMDSLeft`). -/
def HandleUserInputInterrupt (userInput : UserInputs) (s : UIState) : UIState :=
  if s.debounce_in_progress then s
  else
    match userInput with
    | UserInputs.MDS_UP =>
        HandleFlanke ⟨MDS_UP_GPIO_Port, MDS_UP_Pin⟩ UserInputs.MDS_UP s
    | UserInputs.MDS_BUTTON =>
        HandleFlanke ⟨MDS_BUTTON_GPIO_Port, MDS_BUTTON_Pin⟩ UserInputs.MDS_BUTTON s
    | UserInputs.MDS_RIGHT =>
        HandleFlanke ⟨MDS_RIGHT_GPIO_Port, MDS_RIGHT_Pin⟩ UserInputs.MDS_RIGHT s
    | UserInputs.MDS_DOWN =>
        HandleFlanke ⟨MDS_DOWN_GPIO_Port, MDS_DOWN_Pin⟩ UserInputs.MDS_DOWN s
    | UserInputs.USER_BUTTON =>
        HandleFlanke ⟨USER_BUTTON_GPIO_Port, USER_BUTTON_Pin⟩ UserInputs.USER_BUTTON s
    | _ => s

/-- `HandleMDSLeft` (UserInput.c lines 509-518): polls the MDS_LEFT pin; on a
rising edge and only when no debounce is in progress, begins debounce via
`HandleFlanke`; always stores the current sample into
`MDS_LEFT_LetzterStatus`. -/
def HandleMDSLeft (levels : Pin → Bool) (s : UIState) : UIState :=
  let currentState := levels ⟨MDS_LEFT_GPIO_Port, MDS_LEFT_Pin⟩
  let s1 :=
    if currentState && !s.MDS_LEFT_LetzterStatus then
      if !s.debounce_in_progress then
        HandleFlanke ⟨MDS_LEFT_GPIO_Port, MDS_LEFT_Pin⟩ UserInputs.MDS_LEFT s
      else s
    else s
  { s1 with MDS_LEFT_LetzterStatus := currentState }

/-! ## WS2812 protocol encoder (`WS2812.c`)

Only `WS2812_Send` and its completion flag are needed by the claims.  The
duty value the C code computes as `(uint16_t)((2.0/3.0) * (float)(ARR_TIM1
+ 1))` is modelled by the natural-number floor division `2 * (ARR_TIM1 + 1)
/ 3` (and `1/3` likewise): for every value an `uint16_t` register can hold,
the float/double product lies strictly between the two integers surrounding
the exact rational (its relative error is below 2^-50 while the exact value
either is an integer — to which the product then rounds, because the error
is far below half an ulp — or has fractional part 1/3 or 2/3), so the C
truncating cast and the floor division agree. -/

/-- Global state of the WS2812 driver touched by `WS2812_Send`: the 74-slot
PWM buffer, the DMA completion flag, and the `ARR_TIM1` mirror register. -/
structure WSState where
  pwmData : List Nat
  datasentflag : Bool
  ARR_TIM1 : Nat
deriving DecidableEq, Repr

/-- Outcome of one `WS2812_Send` call: the state after the call, whether the
error message was printed, and whether `HAL_TIM_PWM_Start_DMA` ran. -/
structure WSSendResult where
  state : WSState
  logged : Bool
  started : Bool
deriving DecidableEq, Repr

/-- Duty value encoding a logical 1 bit: two thirds of (period + 1)
(WS2812.c line 171, truncating). -/
def WS2812_dutyOne (arr : Nat) : Nat := 2 * (arr + 1) / 3

/-- Duty value encoding a logical 0 bit: one third of (period + 1)
(WS2812.c line 174, truncating). -/
def WS2812_dutyZero (arr : Nat) : Nat := (arr + 1) / 3

/-- `WS2812_Send` (WS2812.c lines 146-197): mirrors `htim1.Init.Period` into
the 16-bit `ARR_TIM1`; if that reads zero, prints a message and returns
without touching `pwmData`, `datasentflag` or the DMA; otherwise packs the
three colour bytes `g`, `r`, `b` (`LED_Mod` under `USE_BRIGHTNESS`) into a
24-bit value `(g << 16) | (r << 8) | b`, emits one duty value per bit from
bit 23 down to bit 0, appends 50 zero slots, starts the 74-slot DMA
transfer and busy-waits on `datasentflag`, clearing it before returning. -/
def WS2812_Send (Period g r b : Nat) (s : WSState) : WSSendResult :=
  let ARR_TIM1 := Period % 65536
  let s := { s with ARR_TIM1 := ARR_TIM1 }
  if ARR_TIM1 == 0 then
    { state := s, logged := true, started := false }
  else
    let color := (g % 256) * 65536 + (r % 256) * 256 + (b % 256)
    let pwm :=
      (List.range 24).map (fun k =>
        if Nat.testBit color (23 - k) then WS2812_dutyOne ARR_TIM1
        else WS2812_dutyZero ARR_TIM1)
      ++ List.replicate 50 0
    { state := { s with pwmData := pwm, datasentflag := false }
    , logged := false
    , started := true }

/-- Message printed by `WS2812_Send` when the auto-reload register is zero. -/
def WS2812_ARR_message : String := "ARR has not been initialized"

/-! ## W25Qxx flash paging writer (`W25Qxx_QSPI.c`)

`W25Qxx_WriteData` is modelled as the trace of chip operations it issues;
the byte buffer travels with the recursion exactly as the C data pointer
does. -/

/-- One chip-level operation issued by the flash driver. -/
inductive FlashEvent where
  | writeEnable
  | pageProgram (address : Nat) (chunk : List Nat)
  | waitForWriteComplete
deriving DecidableEq, Repr

def W25Q128_PAGE_SIZE : Nat := 256

/-- Chunk-size computation of one loop iteration of `W25Qxx_WriteData`
(W25Qxx_QSPI.c lines 383-385): the space left in the page containing
`currentAddress`, capped by the remaining byte count. -/
def W25Qxx_bytesToWrite (currentAddress remainingBytes : Nat) : Nat :=
  let pageOffset := currentAddress % W25Q128_PAGE_SIZE
  let spaceInPage := W25Q128_PAGE_SIZE - pageOffset
  if remainingBytes > spaceInPage then spaceInPage else remainingBytes

/-- Loop of `W25Qxx_WriteData`, indexed by an explicit iteration bound:
every iteration writes at least one byte (a page always has at least one
free byte at any offset), so the C `while (remainingBytes > 0)` loop runs at
most `remainingBytes` iterations; passing that bound as structural fuel
makes the definition kernel-executable without changing its value. -/
def W25Qxx_WriteDataAux : Nat → Nat → List Nat → Nat → List FlashEvent
  | 0, _, _, _ => []
  | fuel + 1, currentAddress, data, remainingBytes =>
    if remainingBytes = 0 then []
    else
      let bytesToWrite := W25Qxx_bytesToWrite currentAddress remainingBytes
      FlashEvent.writeEnable
        :: FlashEvent.pageProgram currentAddress (data.take bytesToWrite)
        :: FlashEvent.waitForWriteComplete
        :: W25Qxx_WriteDataAux fuel (currentAddress + bytesToWrite)
            (data.drop bytesToWrite) (remainingBytes - bytesToWrite)

/-- `W25Qxx_WriteData` (W25Qxx_QSPI.c lines 375-401): while bytes remain,
computes the space left in the page containing the current address, writes
`min(remainingBytes, spaceInPage)` bytes as one write-enable / page-program /
busy-wait triple, and advances address, data pointer and remaining count. -/
def W25Qxx_WriteData (address : Nat) (data : List Nat) (size : Nat) :
    List FlashEvent :=
  W25Qxx_WriteDataAux size address data size

/-- Address/length pairs of the page-program calls of a trace, in order. -/
def pageProgramSpans : List FlashEvent → List (Nat × Nat)
  | [] => []
  | FlashEvent.pageProgram a c :: rest => (a, c.length) :: pageProgramSpans rest
  | _ :: rest => pageProgramSpans rest

/-- Checks that a trace is a sequence of write-enable / page-program /
busy-wait triples and nothing else. -/
def eventPatternOK : List FlashEvent → Bool
  | [] => true
  | FlashEvent.writeEnable :: FlashEvent.pageProgram _ _ ::
      FlashEvent.waitForWriteComplete :: rest => eventPatternOK rest
  | _ => false

/-- Checks that the spans cover exactly the interval from `a` of length `n`,
contiguously and in order, with every piece nonempty. -/
def coversExactly (a n : Nat) : List (Nat × Nat) → Bool
  | [] => n == 0
  | (a1, l) :: rest =>
      a1 == a && decide (0 < l) && decide (l ≤ n) && coversExactly (a + l) (n - l) rest

/-- Checks that a span stays within the 256-byte page containing its start. -/
def spanInPage (p : Nat × Nat) : Bool :=
  decide (p.1 % W25Q128_PAGE_SIZE + p.2 ≤ W25Q128_PAGE_SIZE)

/-! ## ILI9341 colour burst engine (`ILI9341.c`)

`ILI9341_DrawColourBurst` is modelled as the list of SPI data chunks it
transmits after the 0x2C memory-write command.  Arithmetic on `Size` is
`uint32_t`, hence the explicit `% 2^32`. -/

def BURST_MAX_SIZE : Nat := 100

/-- `Buffer_Size` computation of `ILI9341_DrawColourBurst` (ILI9341.c lines
601-607): the full `Size` if `Size*2` is below `BURST_MAX_SIZE`, else
`BURST_MAX_SIZE`. -/
def ILI9341_BufferSize (Size : Nat) : Nat :=
  if Size * 2 % 4294967296 < BURST_MAX_SIZE then Size else BURST_MAX_SIZE

/-- Transmitted contents of `burst_buffer` (ILI9341.c lines 616-622): the
fill loop steps `j` by 2 and writes the colour high byte at even and the low
byte at odd offsets; only the first `Buffer_Size` bytes are transmitted.
(When `Buffer_Size` is odd, the final iteration of the C loop additionally
writes the low byte one past the end of the array — undefined behaviour that
cannot change the bytes modelled here.) -/
def ILI9341_burstBuffer (Colour Size : Nat) : List Nat :=
  (List.range (ILI9341_BufferSize Size)).map (fun j =>
    if j % 2 == 0 then Colour / 256 % 256 else Colour % 256)

/-- `ILI9341_DrawColourBurst` (ILI9341.c lines 595-641) as the list of SPI
data-chunk transmissions: nothing if `Buffer_Size` is zero; otherwise
`Sending_Size / Buffer_Size` full copies of the burst buffer followed by one
transmission of the first `Sending_Size % Buffer_Size` bytes of it. -/
def ILI9341_DrawColourBurst (Colour Size : Nat) : List (List Nat) :=
  let Buffer_Size := ILI9341_BufferSize Size
  if Buffer_Size == 0 then []
  else
    let buf := ILI9341_burstBuffer Colour Size
    let Sending_Size := Size * 2 % 4294967296
    let Sending_in_Block := Sending_Size / Buffer_Size
    let Remainder_from_block := Sending_Size % Buffer_Size
    List.replicate Sending_in_Block buf ++ [buf.take Remainder_from_block]

/-- Concatenated byte stream of all chunk transmissions of one burst call. -/
def ILI9341_burstStream (Colour Size : Nat) : List Nat :=
  (ILI9341_DrawColourBurst Colour Size).flatten

/-! ## Auxiliary definitions used by the theorems -/

/-- Rounding division to the nearest integer (halves rounding up):
`roundDiv a b` is round(a / b). -/
def roundDiv (a b : Nat) : Nat := (2 * a + b) / (2 * b)

/-- Specification-side edge-qualification predicate for the polling path,
written from the spec's words: a rising edge (current sample high, previous
sample low) qualifies for the five MDS lines, a falling edge for the
active-low USER_BUTTON. -/
def pollQualifies (levels : Pin → Bool) (s : UIState) : UserInputs → Bool
  | UserInputs.MDS_LEFT =>
      levels ⟨MDS_LEFT_GPIO_Port, MDS_LEFT_Pin⟩ && !s.MDS_LEFT_LetzterStatus
  | UserInputs.MDS_RIGHT =>
      levels ⟨MDS_RIGHT_GPIO_Port, MDS_RIGHT_Pin⟩ && !s.MDS_RIGHT_LetzterStatus
  | UserInputs.MDS_UP =>
      levels ⟨MDS_UP_GPIO_Port, MDS_UP_Pin⟩ && !s.MDS_UP_LetzterStatus
  | UserInputs.MDS_DOWN =>
      levels ⟨MDS_DOWN_GPIO_Port, MDS_DOWN_Pin⟩ && !s.MDS_DOWN_LetzterStatus
  | UserInputs.MDS_BUTTON =>
      levels ⟨MDS_BUTTON_GPIO_Port, MDS_BUTTON_Pin⟩ && !s.MDS_BUTTON_LetzterStatus
  | UserInputs.USER_BUTTON =>
      !(levels ⟨USER_BUTTON_GPIO_Port, USER_BUTTON_Pin⟩) && s.USER_BUTTON_LetzterStatus
  | UserInputs.USER_INPUT_NONE => false

/-- Channel priority order of the polling `if / else if` chain. -/
def pollPriority : List UserInputs :=
  [UserInputs.MDS_LEFT, UserInputs.MDS_RIGHT, UserInputs.MDS_UP,
   UserInputs.MDS_DOWN, UserInputs.MDS_BUTTON, UserInputs.USER_BUTTON]

/-- Pin bound to each input channel. -/
def pinFor : UserInputs → Pin
  | UserInputs.MDS_LEFT => ⟨MDS_LEFT_GPIO_Port, MDS_LEFT_Pin⟩
  | UserInputs.MDS_RIGHT => ⟨MDS_RIGHT_GPIO_Port, MDS_RIGHT_Pin⟩
  | UserInputs.MDS_UP => ⟨MDS_UP_GPIO_Port, MDS_UP_Pin⟩
  | UserInputs.MDS_DOWN => ⟨MDS_DOWN_GPIO_Port, MDS_DOWN_Pin⟩
  | UserInputs.MDS_BUTTON => ⟨MDS_BUTTON_GPIO_Port, MDS_BUTTON_Pin⟩
  | UserInputs.USER_BUTTON => ⟨USER_BUTTON_GPIO_Port, USER_BUTTON_Pin⟩
  | UserInputs.USER_INPUT_NONE => ⟨0, 0⟩

/-- Storing the six current samples into the `*_LetzterStatus` variables. -/
def updateLetzterStatus (levels : Pin → Bool) (s : UIState) : UIState :=
  { s with MDS_LEFT_LetzterStatus := levels ⟨MDS_LEFT_GPIO_Port, MDS_LEFT_Pin⟩
         , MDS_RIGHT_LetzterStatus := levels ⟨MDS_RIGHT_GPIO_Port, MDS_RIGHT_Pin⟩
         , MDS_UP_LetzterStatus := levels ⟨MDS_UP_GPIO_Port, MDS_UP_Pin⟩
         , MDS_DOWN_LetzterStatus := levels ⟨MDS_DOWN_GPIO_Port, MDS_DOWN_Pin⟩
         , MDS_BUTTON_LetzterStatus := levels ⟨MDS_BUTTON_GPIO_Port, MDS_BUTTON_Pin⟩
         , USER_BUTTON_LetzterStatus := levels ⟨USER_BUTTON_GPIO_Port, USER_BUTTON_Pin⟩ }

/-- Specification-side description of `PollingUserInput` as amended: a no-op
while a debounce is in progress; otherwise begins debounce for the FIRST
channel, in the fixed priority order LEFT, RIGHT, UP, DOWN, BUTTON,
USER_BUTTON, that has a qualifying transition (later qualifying channels in
the same call are skipped), then stores the samples. -/
def PollingSpec (levels : Pin → Bool) (s : UIState) : UIState :=
  if s.debounce_in_progress then s
  else
    let s1 :=
      match pollPriority.find? (pollQualifies levels s) with
      | some c => HandleFlanke (pinFor c) c s
      | none => s
    updateLetzterStatus levels s1

/-- UIState with every flag clear, no recorded input, latch clear, timer
stopped: the module's state after C static initialisation. -/
def UIState.init : UIState :=
  { Pending_MDS_LEFT_Flanke := false
  , Pending_MDS_RIGHT_Flanke := false
  , Pending_MDS_UP_Flanke := false
  , Pending_MDS_DOWN_Flanke := false
  , Pending_MDS_BUTTON_Flanke := false
  , Pending_USER_BUTTON_Flanke := false
  , MDS_LEFT_Flanke := false
  , MDS_RIGHT_Flanke := false
  , MDS_UP_Flanke := false
  , MDS_DOWN_Flanke := false
  , MDS_BUTTON_Flanke := false
  , USER_BUTTON_Flanke := false
  , MDS_LEFT_LetzterStatus := false
  , MDS_RIGHT_LetzterStatus := false
  , MDS_UP_LetzterStatus := false
  , MDS_DOWN_LetzterStatus := false
  , MDS_BUTTON_LetzterStatus := false
  , USER_BUTTON_LetzterStatus := false
  , LetzterUserInputPin := ⟨0, 0⟩
  , LetzterUserInput := UserInputs.USER_INPUT_NONE
  , debounce_in_progress := false
  , tim6_running := false }

/-- Example state with a debounce in progress on MDS_UP. -/
def exampleLatchedState : UIState :=
  { UIState.init with
      LetzterUserInputPin := ⟨MDS_UP_GPIO_Port, MDS_UP_Pin⟩
    , LetzterUserInput := UserInputs.MDS_UP
    , debounce_in_progress := true
    , tim6_running := true }

/-- Example state with a debounce in progress on the active-low USER_BUTTON. -/
def exampleUserButtonDebounceState : UIState :=
  { UIState.init with
      LetzterUserInputPin := ⟨USER_BUTTON_GPIO_Port, USER_BUTTON_Pin⟩
    , LetzterUserInput := UserInputs.USER_BUTTON
    , debounce_in_progress := true
    , tim6_running := true }

/-- Example WS2812 state: empty PWM buffer, completion flag clear. -/
def exampleWSState : WSState :=
  { pwmData := [], datasentflag := false, ARR_TIM1 := 0 }

/-! ## Helper lemmas -/

theorem map_range_eq_replicate (n : Nat) (f : Nat → Nat) (x : Nat)
    (h : ∀ k < n, f k = x) : (List.range n).map f = List.replicate n x := by
  rw [List.eq_replicate_iff]
  refine ⟨by simp, ?_⟩
  intro y hy
  simp only [List.mem_map, List.mem_range] at hy
  obtain ⟨k, hk, rfl⟩ := hy
  exact h k hk

theorem W25Qxx_bytesToWrite_pos (a n : Nat) (h : n ≠ 0) :
    0 < W25Qxx_bytesToWrite a n := by
  have ha : a % 256 < 256 := Nat.mod_lt _ (by norm_num)
  show 0 < (if n > W25Q128_PAGE_SIZE - a % W25Q128_PAGE_SIZE
            then W25Q128_PAGE_SIZE - a % W25Q128_PAGE_SIZE else n)
  unfold W25Q128_PAGE_SIZE
  split <;> omega

theorem W25Qxx_bytesToWrite_le (a n : Nat) : W25Qxx_bytesToWrite a n ≤ n := by
  show (if n > W25Q128_PAGE_SIZE - a % W25Q128_PAGE_SIZE
        then W25Q128_PAGE_SIZE - a % W25Q128_PAGE_SIZE else n) ≤ n
  split <;> omega

theorem W25Qxx_bytesToWrite_in_page (a n : Nat) :
    a % W25Q128_PAGE_SIZE + W25Qxx_bytesToWrite a n ≤ W25Q128_PAGE_SIZE := by
  have ha : a % 256 < 256 := Nat.mod_lt _ (by norm_num)
  show a % W25Q128_PAGE_SIZE +
      (if n > W25Q128_PAGE_SIZE - a % W25Q128_PAGE_SIZE
       then W25Q128_PAGE_SIZE - a % W25Q128_PAGE_SIZE else n) ≤ W25Q128_PAGE_SIZE
  unfold W25Q128_PAGE_SIZE
  split <;> omega

theorem W25Qxx_aux_patternOK (fuel : Nat) :
    ∀ a d n, n ≤ fuel → eventPatternOK (W25Qxx_WriteDataAux fuel a d n) = true := by
  induction fuel with
  | zero => intro a d n hn; rfl
  | succ fuel ih =>
    intro a d n hn
    by_cases h : n = 0
    · simp [W25Qxx_WriteDataAux, h, eventPatternOK]
    · simp only [W25Qxx_WriteDataAux, if_neg h, eventPatternOK]
      apply ih
      have h1 := W25Qxx_bytesToWrite_pos a n h
      omega

theorem W25Qxx_aux_inPage (fuel : Nat) :
    ∀ a d n, n ≤ fuel →
      (pageProgramSpans (W25Qxx_WriteDataAux fuel a d n)).all spanInPage = true := by
  induction fuel with
  | zero => intro a d n hn; rfl
  | succ fuel ih =>
    intro a d n hn
    by_cases h : n = 0
    · simp [W25Qxx_WriteDataAux, h, pageProgramSpans]
    · simp only [W25Qxx_WriteDataAux, if_neg h, pageProgramSpans, List.all_cons,
        Bool.and_eq_true]
      constructor
      · have h2 := W25Qxx_bytesToWrite_in_page a n
        have h3 := W25Qxx_bytesToWrite_le a n
        simp only [spanInPage, List.length_take, decide_eq_true_eq]
        omega
      · apply ih
        have h1 := W25Qxx_bytesToWrite_pos a n h
        omega

theorem W25Qxx_aux_covers (fuel : Nat) :
    ∀ a d n, n ≤ fuel → n ≤ List.length d →
      coversExactly a n (pageProgramSpans (W25Qxx_WriteDataAux fuel a d n)) = true := by
  induction fuel with
  | zero =>
    intro a d n hn hd
    have hz : n = 0 := by omega
    subst hz
    rfl
  | succ fuel ih =>
    intro a d n hn hd
    by_cases h : n = 0
    · subst h; rfl
    · have h1 := W25Qxx_bytesToWrite_pos a n h
      have h2 := W25Qxx_bytesToWrite_le a n
      simp only [W25Qxx_WriteDataAux, if_neg h, pageProgramSpans]
      simp only [coversExactly, List.length_take]
      rw [Nat.min_eq_left (le_trans h2 hd)]
      simp only [beq_self_eq_true, Bool.true_and, Bool.and_eq_true, decide_eq_true_eq]
      refine ⟨⟨?_, ?_⟩, ?_⟩
      · omega
      · omega
      · exact ih _ _ _ (by omega) (by simp only [List.length_drop]; omega)

/-! ## Claim theorems -/

set_option maxRecDepth 8000 in
/-- Claim C5 (confirmed): for every starting address and size,
`W25Qxx_WriteData` issues a sequence of page-program calls none of which has
a byte range crossing a 256-byte page boundary, the calls cover exactly
[address, address + size) contiguously in order, each page program is
preceded by a write-enable and followed by a busy-wait, and in particular
address = 200, size = 300 splits into writes of 56 and 244 bytes. -/
theorem C5_WriteData_page_aligned (address size : Nat) (data : List Nat)
    (hdata : size ≤ List.length data) :
    (pageProgramSpans (W25Qxx_WriteData address data size)).all spanInPage = true ∧
    coversExactly address size (pageProgramSpans (W25Qxx_WriteData address data size)) = true ∧
    eventPatternOK (W25Qxx_WriteData address data size) = true ∧
    pageProgramSpans (W25Qxx_WriteData 200 (List.replicate 300 0) 300)
      = [(200, 56), (256, 244)] :=
  ⟨W25Qxx_aux_inPage size address data size (le_refl size),
   W25Qxx_aux_covers size address data size (le_refl size) hdata,
   W25Qxx_aux_patternOK size address data size (le_refl size),
   by decide⟩

/-- Witness for C5 at address 200, size 300, a 300-byte buffer. -/
theorem C5_WriteData_page_aligned_witness :
    300 ≤ List.length (List.replicate 300 (0 : Nat)) ∧
    ((pageProgramSpans (W25Qxx_WriteData 200 (List.replicate 300 (0 : Nat)) 300)).all
        spanInPage = true ∧
     coversExactly 200 300
        (pageProgramSpans (W25Qxx_WriteData 200 (List.replicate 300 (0 : Nat)) 300)) = true ∧
     eventPatternOK (W25Qxx_WriteData 200 (List.replicate 300 (0 : Nat)) 300) = true ∧
     pageProgramSpans (W25Qxx_WriteData 200 (List.replicate 300 0) 300)
       = [(200, 56), (256, 244)]) :=
  ⟨by simp only [List.length_replicate]; decide,
   C5_WriteData_page_aligned 200 300 (List.replicate 300 (0 : Nat))
     (by simp only [List.length_replicate]; decide)⟩

/-- Claim C6 (code_bug): under the delay debounce strategy the re-sample
condition of `HandleFlanke`, `read == 1 || (read == 0 && userInput ==
USER_BUTTON)`, is satisfied for USER_BUTTON at BOTH pin levels, so a
USER_BUTTON press that did not hold (pin back at the deasserted high level
after the 50 ms delay) still sets the flag; the claim (and the timer-mode
sibling `HandleDebouncedUserInput`) requires that no flag be set then. -/
theorem C6_delay_debounce_USER_BUTTON_always_confirms :
    HandleFlankeDelay true UserInputs.USER_BUTTON false = true ∧
    (∀ level : Bool, HandleFlankeDelay level UserInputs.USER_BUTTON false = true) ∧
    HandleFlankeDelay false UserInputs.MDS_UP false = false ∧
    HandleFlankeDelay true UserInputs.MDS_UP false = true := by
  refine ⟨rfl, ?_, rfl, rfl⟩
  intro level
  cases level <;> rfl

/-- Claim C7 (code_bug): `ILI9341_DrawColourBurst` with colour 0x1234 and
3 pixels transmits 6 bytes in total, but as two 3-byte chunks of the odd
sized buffer [hi, lo, hi]; the concatenated stream is NOT three (hi, lo)
pairs — its second pair is (hi, hi).  (The C fill loop also writes one byte
past the end of the odd-sized buffer.) -/
theorem C7_burst_odd_pixel_count_misaligns_pairs :
    ILI9341_burstStream 4660 3 = [18, 52, 18, 18, 52, 18] ∧
    (ILI9341_burstStream 4660 3).length = 2 * 3 ∧
    ILI9341_burstStream 4660 3 ≠ List.flatten (List.replicate 3 [18, 52]) := by
  decide

/-- Claim C8 counterexample: for one pixel the code computes a chunk size of
1 byte, not min(1 × 2, BURST_MAX_SIZE) = 2 bytes. -/
theorem C8_counterexample_chunk_size_not_min :
    ILI9341_BufferSize 1 = 1 ∧ min (1 * 2) BURST_MAX_SIZE = 2 ∧
    ILI9341_BufferSize 1 ≠ min (1 * 2) BURST_MAX_SIZE := by
  decide

/-- Claim C8 as amended: `ILI9341_DrawColourBurst` computes its chunk size
as `Size` bytes (not `Size * 2`) whenever `Size * 2` (as uint32) is below
`BURST_MAX_SIZE`, and as `BURST_MAX_SIZE` otherwise; this agrees with the
claimed min(pixelCount × 2, BURST_MAX_SIZE) exactly for pixelCount = 0 and
when pixelCount mod 2^31 is at least 50 (the uint32 computation of
pixelCount × 2 wraps every 2^31 pixels). -/
theorem C8_chunk_size_characterization (Size : Nat) :
    ILI9341_BufferSize Size = (if Size * 2 % 4294967296 < 100 then Size else 100) ∧
    (ILI9341_BufferSize Size = min (Size * 2) BURST_MAX_SIZE ↔
      Size = 0 ∨ 50 ≤ Size % 2147483648) := by
  unfold ILI9341_BufferSize BURST_MAX_SIZE
  constructor
  · rfl
  · split <;> rename_i hsplit <;> omega

/-- Claim C9 (confirmed): when the mirrored auto-reload value is zero,
`WS2812_Send` logs the error message and returns without starting the DMA
and without touching the PWM buffer or the completion flag; for every
nonzero (16-bit) period value it starts the transfer and does not log. -/
theorem C9_Send_aborts_on_zero_period (Period g r b : Nat) (s : WSState) :
    (WS2812_Send 0 g r b s).state.pwmData = s.pwmData ∧
    (WS2812_Send 0 g r b s).state.datasentflag = s.datasentflag ∧
    (WS2812_Send 0 g r b s).started = false ∧
    (WS2812_Send 0 g r b s).logged = true ∧
    (WS2812_Send Period g r b s).started = (Period % 65536 != 0) ∧
    (WS2812_Send Period g r b s).logged = (Period % 65536 == 0) := by
  refine ⟨rfl, rfl, rfl, rfl, ?_, ?_⟩ <;>
  · unfold WS2812_Send
    by_cases h : Period % 65536 = 0 <;> simp [h]

/-- Claim C10 (confirmed): `HandlePendingUserInput` promotes exactly the
pending channels into the public confirmed flags (confirmed' = confirmed OR
pending, per channel), clears every pending flag, never clears a confirmed
flag that was set, and is idempotent: an immediately repeated call changes
nothing. -/
theorem C10_HandlePendingUserInput_promote_idempotent (s : UIState) :
    (HandlePendingUserInput s).MDS_LEFT_Flanke
      = (s.MDS_LEFT_Flanke || s.Pending_MDS_LEFT_Flanke) ∧
    (HandlePendingUserInput s).MDS_RIGHT_Flanke
      = (s.MDS_RIGHT_Flanke || s.Pending_MDS_RIGHT_Flanke) ∧
    (HandlePendingUserInput s).MDS_UP_Flanke
      = (s.MDS_UP_Flanke || s.Pending_MDS_UP_Flanke) ∧
    (HandlePendingUserInput s).MDS_DOWN_Flanke
      = (s.MDS_DOWN_Flanke || s.Pending_MDS_DOWN_Flanke) ∧
    (HandlePendingUserInput s).MDS_BUTTON_Flanke
      = (s.MDS_BUTTON_Flanke || s.Pending_MDS_BUTTON_Flanke) ∧
    (HandlePendingUserInput s).USER_BUTTON_Flanke
      = (s.USER_BUTTON_Flanke || s.Pending_USER_BUTTON_Flanke) ∧
    (HandlePendingUserInput s).Pending_MDS_LEFT_Flanke = false ∧
    (HandlePendingUserInput s).Pending_MDS_RIGHT_Flanke = false ∧
    (HandlePendingUserInput s).Pending_MDS_UP_Flanke = false ∧
    (HandlePendingUserInput s).Pending_MDS_DOWN_Flanke = false ∧
    (HandlePendingUserInput s).Pending_MDS_BUTTON_Flanke = false ∧
    (HandlePendingUserInput s).Pending_USER_BUTTON_Flanke = false ∧
    HandlePendingUserInput (HandlePendingUserInput s) = HandlePendingUserInput s := by
  obtain ⟨pL, pR, pU, pD, pB, pUb, fL, fR, fU, fD, fB, fUb,
    aL, aR, aU, aD, aB, aUb, lp, lu, dip, t6⟩ := s
  cases pL <;> cases pR <;> cases pU <;> cases pD <;> cases pB <;> cases pUb <;>
    simp [HandlePendingUserInput]

/-- Claim C1 (confirmed): in timer-debounce mode, once any channel's
debounce has begun (global `debounce_in_progress` latch set), every
qualifying edge delivered through `HandleUserInputInterrupt`,
`PollingUserInput` or `HandleMDSLeft` is dropped as a no-op and not queued:
the two former calls leave the state completely unchanged, and
`HandleMDSLeft` changes nothing except its previous-sample bookkeeping — in
particular no pending or confirmed flag, no recorded channel or pin, and
neither the latch nor the timer change, until the latch is cleared. -/
theorem C1_latch_drops_all_edges (s : UIState) (levels : Pin → Bool)
    (u : UserInputs) (h : s.debounce_in_progress = true) :
    HandleUserInputInterrupt u s = s ∧
    PollingUserInput levels s = s ∧
    (HandleMDSLeft levels s).debounce_in_progress = s.debounce_in_progress ∧
    (HandleMDSLeft levels s).tim6_running = s.tim6_running ∧
    (HandleMDSLeft levels s).LetzterUserInput = s.LetzterUserInput ∧
    (HandleMDSLeft levels s).LetzterUserInputPin = s.LetzterUserInputPin ∧
    (HandleMDSLeft levels s).Pending_MDS_LEFT_Flanke = s.Pending_MDS_LEFT_Flanke ∧
    (HandleMDSLeft levels s).MDS_LEFT_Flanke = s.MDS_LEFT_Flanke := by
  refine ⟨?_, ?_, ?_, ?_, ?_, ?_, ?_, ?_⟩ <;>
    simp [HandleUserInputInterrupt, PollingUserInput, HandleMDSLeft, HandleFlanke, h]

/-- Witness for C1 at a concrete latched state. -/
theorem C1_latch_drops_all_edges_witness :
    exampleLatchedState.debounce_in_progress = true ∧
    (HandleUserInputInterrupt UserInputs.MDS_RIGHT exampleLatchedState
        = exampleLatchedState ∧
     PollingUserInput (fun _ => true) exampleLatchedState = exampleLatchedState ∧
     (HandleMDSLeft (fun _ => true) exampleLatchedState).debounce_in_progress
        = exampleLatchedState.debounce_in_progress ∧
     (HandleMDSLeft (fun _ => true) exampleLatchedState).tim6_running
        = exampleLatchedState.tim6_running ∧
     (HandleMDSLeft (fun _ => true) exampleLatchedState).LetzterUserInput
        = exampleLatchedState.LetzterUserInput ∧
     (HandleMDSLeft (fun _ => true) exampleLatchedState).LetzterUserInputPin
        = exampleLatchedState.LetzterUserInputPin ∧
     (HandleMDSLeft (fun _ => true) exampleLatchedState).Pending_MDS_LEFT_Flanke
        = exampleLatchedState.Pending_MDS_LEFT_Flanke ∧
     (HandleMDSLeft (fun _ => true) exampleLatchedState).MDS_LEFT_Flanke
        = exampleLatchedState.MDS_LEFT_Flanke) :=
  ⟨rfl, C1_latch_drops_all_edges exampleLatchedState (fun _ => true)
          UserInputs.MDS_RIGHT rfl⟩

/-- Claim C2 counterexample: a USER_BUTTON debounce whose (active-low) pin
reads high when the timer expires — the press did not hold — is discarded
(no pending flag is set), but the recorded channel is NOT cleared to none:
it remains USER_BUTTON after the callback, against the claim's "otherwise
... the recorded channel is cleared to none". -/
theorem C2_counterexample_failed_user_button_not_cleared :
    (TIM6_PeriodElapsedCallback (fun _ => true)
        exampleUserButtonDebounceState).Pending_USER_BUTTON_Flanke = false ∧
    (TIM6_PeriodElapsedCallback (fun _ => true)
        exampleUserButtonDebounceState).Pending_MDS_LEFT_Flanke = false ∧
    (TIM6_PeriodElapsedCallback (fun _ => true)
        exampleUserButtonDebounceState).Pending_MDS_RIGHT_Flanke = false ∧
    (TIM6_PeriodElapsedCallback (fun _ => true)
        exampleUserButtonDebounceState).Pending_MDS_UP_Flanke = false ∧
    (TIM6_PeriodElapsedCallback (fun _ => true)
        exampleUserButtonDebounceState).Pending_MDS_DOWN_Flanke = false ∧
    (TIM6_PeriodElapsedCallback (fun _ => true)
        exampleUserButtonDebounceState).Pending_MDS_BUTTON_Flanke = false ∧
    (TIM6_PeriodElapsedCallback (fun _ => true)
        exampleUserButtonDebounceState).LetzterUserInput
      = UserInputs.USER_BUTTON ∧
    (TIM6_PeriodElapsedCallback (fun _ => true)
        exampleUserButtonDebounceState).LetzterUserInput
      ≠ UserInputs.USER_INPUT_NONE := by
  decide

/-- Claim C2 as amended: when the debounce timer expires, the TIM6 callback
re-samples the recorded pin; if it reads high the pending flag of the
recorded MDS channel is set, and if it reads low with USER_BUTTON recorded
the USER_BUTTON pending flag is set; otherwise the attempt is discarded,
and the recorded channel/pin are cleared to none EXCEPT when the recorded
channel is USER_BUTTON and the pin reads high (a failed USER_BUTTON
attempt), where they are left unchanged; in every case the latch is cleared
and the timer stopped before the callback returns. -/
theorem C2_timer_callback_behaviour (levels : Pin → Bool) (s : UIState) :
    (TIM6_PeriodElapsedCallback levels s).debounce_in_progress = false ∧
    (TIM6_PeriodElapsedCallback levels s).tim6_running = false ∧
    (TIM6_PeriodElapsedCallback levels s).Pending_MDS_LEFT_Flanke
      = (s.Pending_MDS_LEFT_Flanke || (levels s.LetzterUserInputPin
          && (s.LetzterUserInput == UserInputs.MDS_LEFT))) ∧
    (TIM6_PeriodElapsedCallback levels s).Pending_MDS_RIGHT_Flanke
      = (s.Pending_MDS_RIGHT_Flanke || (levels s.LetzterUserInputPin
          && (s.LetzterUserInput == UserInputs.MDS_RIGHT))) ∧
    (TIM6_PeriodElapsedCallback levels s).Pending_MDS_UP_Flanke
      = (s.Pending_MDS_UP_Flanke || (levels s.LetzterUserInputPin
          && (s.LetzterUserInput == UserInputs.MDS_UP))) ∧
    (TIM6_PeriodElapsedCallback levels s).Pending_MDS_DOWN_Flanke
      = (s.Pending_MDS_DOWN_Flanke || (levels s.LetzterUserInputPin
          && (s.LetzterUserInput == UserInputs.MDS_DOWN))) ∧
    (TIM6_PeriodElapsedCallback levels s).Pending_MDS_BUTTON_Flanke
      = (s.Pending_MDS_BUTTON_Flanke || (levels s.LetzterUserInputPin
          && (s.LetzterUserInput == UserInputs.MDS_BUTTON))) ∧
    (TIM6_PeriodElapsedCallback levels s).Pending_USER_BUTTON_Flanke
      = (s.Pending_USER_BUTTON_Flanke || (!(levels s.LetzterUserInputPin)
          && (s.LetzterUserInput == UserInputs.USER_BUTTON))) ∧
    (TIM6_PeriodElapsedCallback levels s).LetzterUserInput
      = (if levels s.LetzterUserInputPin
            || (s.LetzterUserInput == UserInputs.USER_BUTTON)
         then s.LetzterUserInput else UserInputs.USER_INPUT_NONE) ∧
    (TIM6_PeriodElapsedCallback levels s).LetzterUserInputPin
      = (if levels s.LetzterUserInputPin
            || (s.LetzterUserInput == UserInputs.USER_BUTTON)
         then s.LetzterUserInputPin else ⟨0, 0⟩) := by
  obtain ⟨pL, pR, pU, pD, pB, pUb, fL, fR, fU, fD, fB, fUb,
    aL, aR, aU, aD, aB, aUb, lp, lu, dip, t6⟩ := s
  cases hl : levels lp <;> cases lu <;>
    simp [TIM6_PeriodElapsedCallback, HandleDebouncedUserInput, hl]

/-- Unfolding lemma for WS2812_Send with a nonzero 16-bit period. -/
theorem WS2812_Send_pwm (Period g r b : Nat) (s : WSState)
    (h : (Period % 65536 == 0) = false) :
    (WS2812_Send Period g r b s).state.pwmData
      = (List.range 24).map (fun k =>
          if Nat.testBit ((g % 256) * 65536 + (r % 256) * 256 + b % 256) (23 - k)
          then WS2812_dutyOne (Period % 65536) else WS2812_dutyZero (Period % 65536))
        ++ List.replicate 50 0 := by
  simp only [WS2812_Send, h, Bool.false_eq_true, if_false]

/-- Claim C3 counterexample: at period P = 3 and colour 0xFFFFFF the code
emits duty value 2 = trunc(2/3 × 4) in every colour slot, not
round(2/3 × 4) = 3 as claimed. -/
theorem C3_counterexample_duty_is_truncated :
    roundDiv (2 * (3 + 1)) 3 = 3 ∧
    ¬ (∀ v ∈ List.take 24 (WS2812_Send 3 255 255 255 exampleWSState).state.pwmData,
         v = roundDiv (2 * (3 + 1)) 3) := by
  decide

/-- Claim C3 as amended: for every 16-bit timer period P > 0, `WS2812_Send`
writes 24 duty values (colour bits, most significant first) followed by 50
zero slots into the 74-entry PWM buffer; for colour 0xFFFFFF every duty
value equals trunc(2/3 × (P + 1)) (floor, not round), for 0x000000 every
duty value equals trunc(1/3 × (P + 1)), and the trailing 50 slots are 0 for
every colour. -/
theorem C3_Send_pwm_encoding (Period g r b : Nat) (s : WSState)
    (h0 : 0 < Period) (h1 : Period < 65536) :
    (WS2812_Send Period 255 255 255 s).state.pwmData
      = List.replicate 24 (2 * (Period + 1) / 3) ++ List.replicate 50 0 ∧
    (WS2812_Send Period 0 0 0 s).state.pwmData
      = List.replicate 24 ((Period + 1) / 3) ++ List.replicate 50 0 ∧
    List.drop 24 (WS2812_Send Period g r b s).state.pwmData = List.replicate 50 0 ∧
    List.length (WS2812_Send Period g r b s).state.pwmData = 74 := by
  have harr : Period % 65536 = Period := Nat.mod_eq_of_lt h1
  have hne : (Period % 65536 == 0) = false := by
    simp only [harr, beq_eq_false_iff_ne, ne_eq]
    omega
  have hbits1 : ∀ k, k < 24 → Nat.testBit 16777215 (23 - k) = true := by decide
  have hbits0 : ∀ k, k < 24 → Nat.testBit 0 (23 - k) = false := by decide
  refine ⟨?_, ?_, ?_, ?_⟩
  · rw [WS2812_Send_pwm _ _ _ _ _ hne]
    congr 1
    refine map_range_eq_replicate 24 _ _ (fun k hk => ?_)
    norm_num [hbits1 k hk, harr, WS2812_dutyOne]
  · rw [WS2812_Send_pwm _ _ _ _ _ hne]
    congr 1
    refine map_range_eq_replicate 24 _ _ (fun k hk => ?_)
    norm_num [hbits0 k hk, harr, WS2812_dutyZero]
  · rw [WS2812_Send_pwm _ _ _ _ _ hne]
    rw [List.drop_left' (by simp)]
  · rw [WS2812_Send_pwm _ _ _ _ _ hne]
    simp
/-- Witness for C3 at period 3 and colour bytes (7, 7, 7). -/
theorem C3_Send_pwm_encoding_witness :
    0 < 3 ∧ 3 < 65536 ∧
    ((WS2812_Send 3 255 255 255 exampleWSState).state.pwmData
        = List.replicate 24 (2 * (3 + 1) / 3) ++ List.replicate 50 0 ∧
     (WS2812_Send 3 0 0 0 exampleWSState).state.pwmData
        = List.replicate 24 ((3 + 1) / 3) ++ List.replicate 50 0 ∧
     List.drop 24 (WS2812_Send 3 7 7 7 exampleWSState).state.pwmData
        = List.replicate 50 0 ∧
     List.length (WS2812_Send 3 7 7 7 exampleWSState).state.pwmData = 74) :=
  ⟨by decide, by decide,
   C3_Send_pwm_encoding 3 7 7 7 exampleWSState (by decide) (by decide)⟩

/-- Claim C4 counterexample: simultaneous qualifying rising edges on
MDS_LEFT and MDS_RIGHT in the same `PollingUserInput` call, with no
debounce in progress, begin a debounce attempt only for MDS_LEFT; no
debounce is begun for MDS_RIGHT (the recorded channel — the only record a
begun attempt leaves — is MDS_LEFT). -/
theorem C4_counterexample_simultaneous_edges :
    pollQualifies (fun _ => true) UIState.init UserInputs.MDS_LEFT = true ∧
    pollQualifies (fun _ => true) UIState.init UserInputs.MDS_RIGHT = true ∧
    UIState.init.debounce_in_progress = false ∧
    (PollingUserInput (fun _ => true) UIState.init).debounce_in_progress = true ∧
    (PollingUserInput (fun _ => true) UIState.init).LetzterUserInput
      = UserInputs.MDS_LEFT ∧
    (PollingUserInput (fun _ => true) UIState.init).LetzterUserInput
      ≠ UserInputs.MDS_RIGHT := by
  decide

set_option maxHeartbeats 1000000 in
/-- Claim C4 as amended: `PollingUserInput` is a no-op while a debounce is
in progress; otherwise it samples all six raw pin levels once and begins
debounce only for the FIRST channel, in the fixed priority order LEFT,
RIGHT, UP, DOWN, BUTTON, USER_BUTTON, that has a qualifying transition
(rising edge for the five joystick/button lines, falling edge for
USER_BUTTON) — a simultaneous qualifying transition on a lower-priority
channel in the same call is skipped, not debounced. -/
theorem C4_polling_first_match (levels : Pin → Bool) (s : UIState) :
    PollingUserInput levels s = PollingSpec levels s := by
  by_cases hd : s.debounce_in_progress = true
  · simp [PollingUserInput, PollingSpec, hd]
  · simp only [Bool.not_eq_true] at hd
    have e1 : pollQualifies levels s UserInputs.MDS_LEFT
        = (levels ⟨MDS_LEFT_GPIO_Port, MDS_LEFT_Pin⟩ && !s.MDS_LEFT_LetzterStatus) := rfl
    have e2 : pollQualifies levels s UserInputs.MDS_RIGHT
        = (levels ⟨MDS_RIGHT_GPIO_Port, MDS_RIGHT_Pin⟩ && !s.MDS_RIGHT_LetzterStatus) := rfl
    have e3 : pollQualifies levels s UserInputs.MDS_UP
        = (levels ⟨MDS_UP_GPIO_Port, MDS_UP_Pin⟩ && !s.MDS_UP_LetzterStatus) := rfl
    have e4 : pollQualifies levels s UserInputs.MDS_DOWN
        = (levels ⟨MDS_DOWN_GPIO_Port, MDS_DOWN_Pin⟩ && !s.MDS_DOWN_LetzterStatus) := rfl
    have e5 : pollQualifies levels s UserInputs.MDS_BUTTON
        = (levels ⟨MDS_BUTTON_GPIO_Port, MDS_BUTTON_Pin⟩ && !s.MDS_BUTTON_LetzterStatus) := rfl
    have e6 : pollQualifies levels s UserInputs.USER_BUTTON
        = (!(levels ⟨USER_BUTTON_GPIO_Port, USER_BUTTON_Pin⟩) && s.USER_BUTTON_LetzterStatus) := rfl
    simp only [PollingUserInput, PollingSpec, hd, Bool.false_eq_true, if_false,
      pollPriority, List.find?]
    rw [← e1, ← e2, ← e3, ← e4, ← e5, ← e6]
    cases pollQualifies levels s UserInputs.MDS_LEFT <;>
    cases pollQualifies levels s UserInputs.MDS_RIGHT <;>
    cases pollQualifies levels s UserInputs.MDS_UP <;>
    cases pollQualifies levels s UserInputs.MDS_DOWN <;>
    cases pollQualifies levels s UserInputs.MDS_BUTTON <;>
    cases pollQualifies levels s UserInputs.USER_BUTTON <;>
    simp only [Bool.false_eq_true, Bool.true_eq_false, if_true, if_false,
      ite_true, ite_false, updateLetzterStatus, HandleFlanke, pinFor]
